import Mathlib

/-
Verification of the Section / SectionVariable subsystem of DeltaMetrics
(file deltametrics/section.py), via a shallow embedding.

Numpy arrays are modelled as `List` (1-D) and `List (List _)` (2-D,
row-major).  Machine floats are modelled as elements of a linear ordered
field (instantiated at `ℚ` for concrete evaluation and at `ℝ` where the
code takes square roots).  Python exceptions are modelled with `Except`.
-/

/-- Python exception kinds raised by section.py, with their message. -/
inductive PyError where
  | attributeError : String → PyError
  | valueError : String → PyError
  | typeError : String → PyError
  | notImplementedError : PyError
deriving DecidableEq, Repr

/-- BaseSectionVariable._spacetime_names. -/
def spacetime_names : List String :=
  ["full", "spacetime", "as spacetime", "as_spacetime"]

/-- BaseSectionVariable._preserved_names. -/
def preserved_names : List String :=
  ["psvd", "preserved", "as preserved", "as_preserved"]

/-- BaseSectionVariable._stratigraphy_names. -/
def stratigraphy_names : List String :=
  ["strat", "strata", "stratigraphy", "as stratigraphy", "as_stratigraphy"]

/-- The ValueError message produced by the style dispatchers
(python: raise ValueError checked with the offending style string). -/
def badStyleMsg (st : String) : String := "Bad style argument: " ++ st

/-- First output of np.meshgrid(s, z): shape (len z, len s), each row a copy
of s. -/
def meshS {α : Type} (s : List α) (z : List α) : List (List α) :=
  z.map fun _ => s

/-- Second output of np.meshgrid(s, z): shape (len z, len s), row k constant
equal to z k. -/
def meshZ {α : Type} (s : List α) (z : List α) : List (List α) :=
  z.map fun zk => s.map fun _ => zk

/-- np.min over a 1-D array; none models the ValueError numpy raises on an
empty array. -/
def npMin {α : Type} [LinearOrder α] : List α → Option α
  | [] => none
  | a :: t => some (t.foldl min a)

/-- np.max over a 1-D array; none models the ValueError numpy raises on an
empty array. -/
def npMax {α : Type} [LinearOrder α] : List α → Option α
  | [] => none
  | a :: t => some (t.foldl max a)

/-- The _reshape_long helper of DataSectionVariable.get_display_lines:
np.vstack((X take all but last column flattened, X drop first column
flattened)).T, i.e. the list of horizontally adjacent pairs of X in
row-major order. -/
def reshape_long {α : Type} (X : List (List α)) : List (α × α) :=
  (X.map fun row => row.zip row.tail).flatten

/-- Numpy boolean-mask indexing data with a same-shaped boolean mask:
the selected elements in row-major order. -/
def maskSelect {α : Type} (data : List (List α)) (mask : List (List Bool)) :
    List α :=
  ((data.zip mask).map fun dm =>
    (dm.1.zip dm.2).filterMap fun xb => if xb.2 then some xb.1 else none).flatten

/-- A scipy sparse COO matrix: entry data, row and column coordinates, and
the inferred shape. -/
structure Coo (α : Type) where
  entries : List α
  row : List Nat
  col : List Nat
  shape : Nat × Nat
deriving DecidableEq, Repr

/-- scipy.sparse.coo_matrix((data, (row, col))) with shape inference:
shape is (max row + 1, max col + 1); mismatched lengths or empty index
arrays raise ValueError. -/
def coo_matrix {α : Type} (data : List α) (row col : List Nat) :
    Except PyError (Coo α) :=
  if data.length = row.length ∧ data.length = col.length then
    if data.length = 0 then
      .error (.valueError "cannot infer dimensions from zero sized index arrays")
    else
      .ok ⟨data, row, col, (row.foldl max 0 + 1, col.foldl max 0 + 1)⟩
  else
    .error (.valueError "row, column, and data array must all be the same length")

/-- Coo.toarray: densify, summing duplicate coordinates (scipy semantics). -/
def Coo.toarray {α : Type} [AddCommMonoid α] (m : Coo α) : List (List α) :=
  (List.range m.shape.1).map fun r =>
    (List.range m.shape.2).map fun c =>
      (((m.row.zip m.col).zip m.entries).filterMap fun t =>
        if t.1.1 = r ∧ t.1.2 = c then some t.2 else none).sum

/-- Modelled from the spec: the stratigraphy attribute bundle produced by
the strat module (not under src/), as described in spec section 3: psvd_idx
is the boolean preserved-cell mask with the shape of the section data, z_sp
and s_sp are the sparse-matrix row/col coordinates of the preserved cells,
psvd_flld the filled/compacted vertical coordinate mesh, strata the
per-position vertical boundary array. -/
structure StratAttr (α : Type) where
  psvd_idx : List (List Bool)
  z_sp : List Nat
  s_sp : List Nat
  psvd_flld : List (List α)
  strata : List (List α)
deriving DecidableEq, Repr

/-- DataSectionVariable: the section variable returned from a DataCube
section.  data is the (Z, M) slice, s and z the section coordinates;
psvd_mask and strat_attr are present exactly when the variable was built
with stratigraphy information (python: _knows_stratigraphy). -/
structure DataSectionVariable (α : Type) where
  data : List (List α)
  s : List α
  z : List α
  psvd_mask : Option (List (List Bool))
  strat_attr : Option (StratAttr α)
deriving DecidableEq, Repr

/-- DataSectionVariable.knows_stratigraphy. -/
def DataSectionVariable.knows_stratigraphy {α : Type}
    (v : DataSectionVariable α) : Bool :=
  v.strat_attr.isSome

/-- StratigraphySectionVariable: the variable returned from a
StratigraphyCube section; it carries no preservation information. -/
structure StratigraphySectionVariable (α : Type) where
  data : List (List α)
  s : List α
  z : List α
deriving DecidableEq, Repr

/-- The capability-error message of
DataSectionVariable._check_knows_stratigraphy. -/
def noPreservationMsg : String := "No preservation information."

/-- The capability-error message of
StratigraphySectionVariable._check_knows_spacetime. -/
def noSpacetimeMsg : String :=
  "No spacetime or preserved information available."

/-- DataSectionVariable.as_preserved: masked array with non-preserved
values masked (mask = negation of psvd_mask); raises the capability
AttributeError when the variable does not know stratigraphy. -/
def DataSectionVariable.as_preserved {α : Type} (v : DataSectionVariable α) :
    Except PyError (List (List α) × List (List Bool)) :=
  if v.knows_stratigraphy then
    match v.psvd_mask with
    | some m => .ok (v.data, m.map (List.map not))
    | none => .error (.typeError "bad operand type for unary invert")
  else .error (.attributeError noPreservationMsg)

/-- DataSectionVariable.as_stratigraphy: sparse COO matrix of the preserved
data values placed at (z_sp, s_sp); capability AttributeError without
stratigraphy knowledge. -/
def DataSectionVariable.as_stratigraphy {α : Type} (v : DataSectionVariable α) :
    Except PyError (Coo α) :=
  match v.strat_attr with
  | none => .error (.attributeError noPreservationMsg)
  | some sa => coo_matrix (maskSelect v.data sa.psvd_idx) sa.z_sp sa.s_sp

/-- Result triple of get_display_arrays: the array (with its optional
mask, for the preserved style), the X mesh and the Y mesh. -/
structure DispArrays (α : Type) where
  arr : List (List α)
  mask : Option (List (List Bool))
  X : List (List α)
  Y : List (List α)
deriving DecidableEq, Repr

/-- DataSectionVariable.get_display_arrays after style-default resolution
(argument is the resolved style string). -/
def DataSectionVariable.get_display_arrays_st {α : Type} [AddCommMonoid α]
    (v : DataSectionVariable α) (st : String) :
    Except PyError (DispArrays α) :=
  if st ∈ spacetime_names then
    .ok ⟨v.data, none, meshS v.s v.z, meshZ v.s v.z⟩
  else if st ∈ preserved_names then
    (v.as_preserved).map fun md =>
      ⟨md.1, some md.2, meshS v.s v.z, meshZ v.s v.z⟩
  else if st ∈ stratigraphy_names then
    (v.as_stratigraphy).bind fun sp =>
      match v.strat_attr with
      | some sa =>
          .ok ⟨sp.toarray, none, List.replicate sp.shape.1 v.s,
               sa.psvd_flld.take sp.shape.1⟩
      | none => .error (.attributeError noPreservationMsg)
  else .error (.valueError (badStyleMsg st))

/-- DataSectionVariable.get_display_arrays; a missing style resolves to the
variant default, the string spacetime. -/
def DataSectionVariable.get_display_arrays {α : Type} [AddCommMonoid α]
    (v : DataSectionVariable α) (style : Option String) :
    Except PyError (DispArrays α) :=
  v.get_display_arrays_st (style.getD "spacetime")

/-- Result of get_display_lines: the per-segment data values (array with
last column dropped, with its optional mask) and the list of line segments,
each a pair of (s, y) endpoints. -/
structure DispLines (α : Type) where
  arr : List (List α)
  mask : Option (List (List Bool))
  segments : List ((α × α) × (α × α))
deriving DecidableEq, Repr

/-- DataSectionVariable.get_display_lines after style resolution. -/
def DataSectionVariable.get_display_lines_st {α : Type}
    (v : DataSectionVariable α) (st : String) :
    Except PyError (DispLines α) :=
  if st ∈ spacetime_names then
    .ok ⟨v.data.map List.dropLast, none,
         (reshape_long (meshS v.s v.z)).zip (reshape_long (meshZ v.s v.z))⟩
  else if st ∈ preserved_names then
    (v.as_preserved).map fun md =>
      ⟨md.1.map List.dropLast, some (md.2.map List.dropLast),
       (reshape_long (meshS v.s v.z)).zip (reshape_long (meshZ v.s v.z))⟩
  else if st ∈ stratigraphy_names then
    match v.strat_attr with
    | none => .error (.attributeError noPreservationMsg)
    | some sa =>
        .ok ⟨v.data.map List.dropLast, none,
             (reshape_long (meshS v.s v.z)).zip (reshape_long sa.strata)⟩
  else .error (.valueError (badStyleMsg st))

/-- DataSectionVariable.get_display_lines; default style is spacetime. -/
def DataSectionVariable.get_display_lines {α : Type}
    (v : DataSectionVariable α) (style : Option String) :
    Except PyError (DispLines α) :=
  v.get_display_lines_st (style.getD "spacetime")

/-- The ValueError numpy raises when reducing an empty array with min/max. -/
def zeroSizeMsg : String := "zero-size array to reduction operation"

/-- DataSectionVariable.get_display_limits after style resolution:
spacetime and preserved styles both return the bounding box of the S and Z
meshes with no stratigraphy check; the stratigraphy style returns the S
bounds together with min of strata and 1.5 times max of strata. -/
def DataSectionVariable.get_display_limits_st {α : Type}
    [LinearOrderedField α] (v : DataSectionVariable α) (st : String) :
    Except PyError (α × α × α × α) :=
  if st ∈ spacetime_names ∨ st ∈ preserved_names then
    match npMin (meshS v.s v.z).flatten, npMax (meshS v.s v.z).flatten,
          npMin (meshZ v.s v.z).flatten, npMax (meshZ v.s v.z).flatten with
    | some a, some b, some c, some d => .ok (a, b, c, d)
    | _, _, _, _ => .error (.valueError zeroSizeMsg)
  else if st ∈ stratigraphy_names then
    match v.strat_attr with
    | none => .error (.attributeError noPreservationMsg)
    | some sa =>
        match npMin (meshS v.s v.z).flatten, npMax (meshS v.s v.z).flatten,
              npMin sa.strata.flatten, npMax sa.strata.flatten with
        | some a, some b, some c, some d => .ok (a, b, c, d * (3 / 2))
        | _, _, _, _ => .error (.valueError zeroSizeMsg)
  else .error (.valueError (badStyleMsg st))

/-- DataSectionVariable.get_display_limits; default style is spacetime. -/
def DataSectionVariable.get_display_limits {α : Type} [LinearOrderedField α]
    (v : DataSectionVariable α) (style : Option String) :
    Except PyError (α × α × α × α) :=
  v.get_display_limits_st (style.getD "spacetime")

/-- StratigraphySectionVariable.get_display_arrays after style resolution:
spacetime and preserved always raise the capability error. -/
def StratigraphySectionVariable.get_display_arrays_st {α : Type}
    (v : StratigraphySectionVariable α) (st : String) :
    Except PyError (DispArrays α) :=
  if st ∈ spacetime_names then .error (.attributeError noSpacetimeMsg)
  else if st ∈ preserved_names then .error (.attributeError noSpacetimeMsg)
  else if st ∈ stratigraphy_names then
    .ok ⟨v.data, none, meshS v.s v.z, meshZ v.s v.z⟩
  else .error (.valueError (badStyleMsg st))

/-- StratigraphySectionVariable.get_display_arrays; default style is
stratigraphy. -/
def StratigraphySectionVariable.get_display_arrays {α : Type}
    (v : StratigraphySectionVariable α) (style : Option String) :
    Except PyError (DispArrays α) :=
  v.get_display_arrays_st (style.getD "stratigraphy")

/-- StratigraphySectionVariable.get_display_lines after style resolution:
spacetime and preserved raise the capability error, stratigraphy raises
NotImplementedError. -/
def StratigraphySectionVariable.get_display_lines_st {α : Type}
    (_v : StratigraphySectionVariable α) (st : String) :
    Except PyError (DispLines α) :=
  if st ∈ spacetime_names then .error (.attributeError noSpacetimeMsg)
  else if st ∈ preserved_names then .error (.attributeError noSpacetimeMsg)
  else if st ∈ stratigraphy_names then .error .notImplementedError
  else .error (.valueError (badStyleMsg st))

/-- StratigraphySectionVariable.get_display_lines; default style is
stratigraphy. -/
def StratigraphySectionVariable.get_display_lines {α : Type}
    (v : StratigraphySectionVariable α) (style : Option String) :
    Except PyError (DispLines α) :=
  v.get_display_lines_st (style.getD "stratigraphy")

/-- StratigraphySectionVariable.get_display_limits after style resolution. -/
def StratigraphySectionVariable.get_display_limits_st {α : Type}
    [LinearOrderedField α] (v : StratigraphySectionVariable α) (st : String) :
    Except PyError (α × α × α × α) :=
  if st ∈ spacetime_names then .error (.attributeError noSpacetimeMsg)
  else if st ∈ preserved_names then .error (.attributeError noSpacetimeMsg)
  else if st ∈ stratigraphy_names then
    match npMin (meshS v.s v.z).flatten, npMax (meshS v.s v.z).flatten,
          npMin (meshZ v.s v.z).flatten, npMax (meshZ v.s v.z).flatten with
    | some a, some b, some c, some d => .ok (a, b, c, d * (3 / 2))
    | _, _, _, _ => .error (.valueError zeroSizeMsg)
  else .error (.valueError (badStyleMsg st))

/-- StratigraphySectionVariable.get_display_limits; default style is
stratigraphy. -/
def StratigraphySectionVariable.get_display_limits {α : Type}
    [LinearOrderedField α] (v : StratigraphySectionVariable α)
    (style : Option String) : Except PyError (α × α × α × α) :=
  v.get_display_limits_st (style.getD "stratigraphy")

/-- The python type discriminator used by BaseSection.__getitem__:
type(self.cube) is cube.DataCube / cube.StratigraphyCube, or some other
BaseCube subclass. -/
inductive CubeKind where
  | DataCube
  | StratigraphyCube
  | OtherCube
deriving DecidableEq, Repr

/-- Modelled from the spec: the Volume collaborator (the cube module is not
under src/), following spec section 6: a kind discriminator, the variable
list, the vertical coordinate z, and per-variable data indexable by
(layer, y, x) with nt layers; for data kind volumes a knows_stratigraphy
flag, the 3-D preserved-cell mask, and the strat_attr accessor returning a
section-scoped attribute bundle. -/
structure Cube (α : Type) where
  kind : CubeKind
  varList : List String
  nt : Nat
  z : List α
  vals : String → Nat → Nat → Nat → α
  knows_stratigraphy : Bool
  psvd_idx : Nat → Nat → Nat → Bool
  strat_attr_of : List Nat → List Nat → StratAttr α

/-- The numpy fancy-indexing slice cube of var at all layers and the paired
index arrays y, x (python: self.cube of var, sliced by colon, self._y,
self._x): a (nt, M) array with entry (t, i) the cube value at
(t, y i, x i). -/
def sliceCube {α : Type} (c : Cube α) (var : String) (ys xs : List Nat) :
    List (List α) :=
  (List.range c.nt).map fun t => (ys.zip xs).map fun p => c.vals var t p.1 p.2

/-- The same fancy-indexing slice of the 3-D preserved-cell mask
(python: self.cube.strat_attr.psvd_idx sliced by colon, self._y, self._x). -/
def slicePsvd {α : Type} (c : Cube α) (ys xs : List Nat) :
    List (List Bool) :=
  (List.range c.nt).map fun t => (ys.zip xs).map fun p => c.psvd_idx t p.1 p.2

/-- BaseSection state: the optional bound cube and the coordinate arrays
(python attributes self.cube, self._x, self._y, self._s, self._z; all None
before connect, modelled by the unconnected state below). -/
structure BaseSection (α : Type) where
  cube : Option (Cube α)
  x : List Nat
  y : List Nat
  s : List α
  z : List α

/-- BaseSection.trace: np.column_stack((self._x, self._y)), the list of
(x, y) pairs. -/
def BaseSection.trace {α : Type} (sec : BaseSection α) : List (Nat × Nat) :=
  sec.x.zip sec.y

/-- Either variant a section extraction can produce. -/
inductive SectionVariableResult (α : Type) where
  | dataVar : DataSectionVariable α → SectionVariableResult α
  | stratVar : StratigraphySectionVariable α → SectionVariableResult α

/-- The not-connected AttributeError message of BaseSection.__getitem__. -/
def notConnectedMsg : String :=
  "No cube connected. Are you sure you ran connect?"

/-- The TypeError message for an unrecognized cube type. -/
def unknownCubeMsg : String := "Unknown Cube type encountered."

/-- BaseSection.__getitem__: dispatch on the bound cube's python type.  A
DataCube yields a DataSectionVariable (with preservation mask and
section-scoped attribute bundle exactly when the cube knows stratigraphy),
a StratigraphyCube yields a StratigraphySectionVariable, no cube raises
the not-connected AttributeError, and any other cube type raises
TypeError. -/
def BaseSection.getitem {α : Type} (sec : BaseSection α) (var : String) :
    Except PyError (SectionVariableResult α) :=
  match sec.cube with
  | some c =>
    if c.kind = CubeKind.DataCube then
      if c.knows_stratigraphy then
        .ok (.dataVar
          { data := sliceCube c var sec.y sec.x
            s := sec.s
            z := c.z
            psvd_mask := some (slicePsvd c sec.y sec.x)
            strat_attr := some (c.strat_attr_of sec.y sec.x) })
      else
        .ok (.dataVar
          { data := sliceCube c var sec.y sec.x
            s := sec.s
            z := c.z
            psvd_mask := none
            strat_attr := none })
    else if c.kind = CubeKind.StratigraphyCube then
      .ok (.stratVar { data := sliceCube c var sec.y sec.x, s := sec.s, z := c.z })
    else
      .error (.typeError unknownCubeMsg)
  | none => .error (.attributeError notConnectedMsg)

/-- The ValueError message of BaseSection.__init__ for more than one
positional argument. -/
def tooManyArgsMsg : String := "Expected single argument to Section instantiation."

/-- BaseSection.__init__: zero positional arguments yield the unconnected
state, one argument connects immediately (the abstract
_compute_section_coords together with _compute_section_attrs is passed in
as computeCoords, returning the x, y and s arrays), and more than one
argument raises ValueError. -/
def BaseSection.init {α : Type}
    (computeCoords : Cube α → List Nat × List Nat × List α)
    (args : List (Cube α)) : Except PyError (BaseSection α) :=
  if args.length > 1 then .error (.valueError tooManyArgsMsg)
  else
    match args with
    | [] => .ok { cube := none, x := [], y := [], s := [], z := [] }
    | c :: _ =>
        let xys := computeCoords c
        .ok { cube := some c, x := xys.1, y := xys.2.1, s := xys.2.2, z := c.z }

/-- Euclidean distance between two points, as computed elementwise by
BaseSection._compute_section_attrs: sqrt of squared coordinate
differences. -/
noncomputable def ptDist (p q : ℝ × ℝ) : ℝ :=
  Real.sqrt ((q.1 - p.1) ^ 2 + (q.2 - p.2) ^ 2)

/-- The list of consecutive-point distances (python:
np.sqrt((x drop first - x drop last)**2 + (y drop first - y drop last)**2)
over the zipped point list). -/
noncomputable def pairDists : List (ℝ × ℝ) → List ℝ
  | [] => []
  | [_] => []
  | p :: q :: rest => ptDist p q :: pairDists (q :: rest)

/-- np.cumsum starting from an initial accumulated value a: the running
sums, including a itself as the first entry (this is
np.cumsum(np.hstack((a, l)))). -/
def cumsumFrom {α : Type} [Add α] (a : α) : List α → List α
  | [] => [a]
  | d :: ds => a :: cumsumFrom (a + d) ds

/-- BaseSection._compute_section_attrs: the along-section coordinate
self._s = np.cumsum(np.hstack((0, pairwise Euclidean distances))). -/
noncomputable def computeS (xs ys : List ℝ) : List ℝ :=
  cumsumFrom 0 (pairDists (xs.zip ys))

/-- PathSection._compute_section_coords: self._x = path column 1,
self._y = path column 0 (each path row modelled as the pair of its two
columns). -/
def PathSection.compute_section_coords {α : Type} (path : List (α × α)) :
    List α × List α :=
  (path.map Prod.snd, path.map Prod.fst)

/-- The trace of a PathSection built from the given path:
np.column_stack((self._x, self._y)) after PathSection coordinate
computation. -/
def PathSection.trace {α : Type} (path : List (α × α)) : List (α × α) :=
  (PathSection.compute_section_coords path).1.zip
    (PathSection.compute_section_coords path).2

/-- StrikeSection._compute_section_coords: self._x = np.arange(nx),
self._y = np.tile(y, nx), where nx is the cube's horizontal extent. -/
def StrikeSection.compute_section_coords (nx y0 : Nat) :
    List Nat × List Nat :=
  (List.range nx, List.replicate nx y0)

/-- The along-section coordinate of a StrikeSection over an nx-wide volume
with fixed index y0: _compute_section_attrs applied to the strike
coordinate arrays (cast to floats as numpy does). -/
noncomputable def strikeS (nx y0 : Nat) : List ℝ :=
  computeS ((StrikeSection.compute_section_coords nx y0).1.map fun n : Nat => (n : ℝ))
    ((StrikeSection.compute_section_coords nx y0).2.map fun n : Nat => (n : ℝ))

/-- A concrete stratigraphy attribute bundle over ℚ used in concrete
evaluations: one preserved cell, compacted to sparse coordinate (0, 0). -/
def exStratAttr : StratAttr ℚ :=
  { psvd_idx := [[true, false, false], [false, false, false]]
    z_sp := [0]
    s_sp := [0]
    psvd_flld := [[10, 11, 12], [13, 14, 15]]
    strata := [[0, 0, 0], [1, 1, 1]] }

/-- A concrete data variable over ℚ (Z = 2, M = 3) that knows
stratigraphy. -/
def exVarKnows : DataSectionVariable ℚ :=
  { data := [[1, 2, 3], [4, 5, 6]]
    s := [0, 1, 2]
    z := [0, 1]
    psvd_mask := some [[true, false, false], [false, false, false]]
    strat_attr := some exStratAttr }

/-- A concrete data variable over ℚ built without stratigraphy
knowledge. -/
def exVarNoStrat : DataSectionVariable ℚ :=
  { data := [[1, 2], [3, 4]]
    s := [0, 1]
    z := [0, 1]
    psvd_mask := none
    strat_attr := none }

/-- A concrete stratigraphy-only variable over ℚ. -/
def exStratVar : StratigraphySectionVariable ℚ :=
  { data := [[1, 2]], s := [0, 1], z := [0] }

/-- A concrete data-kind cube over ℚ. -/
def exCubeData : Cube ℚ :=
  { kind := CubeKind.DataCube
    varList := ["eta"]
    nt := 2
    z := [0, 1]
    vals := fun _ t y x => (t : ℚ) + (y : ℚ) + (x : ℚ)
    knows_stratigraphy := false
    psvd_idx := fun _ _ _ => false
    strat_attr_of := fun _ _ => exStratAttr }

/-- A cube whose python type is a BaseCube subclass that is neither
DataCube nor StratigraphyCube. -/
def exCubeOther : Cube ℚ := { exCubeData with kind := CubeKind.OtherCube }

/-- A concrete connected section over exCubeData with M = 3. -/
def exSec : BaseSection ℚ :=
  { cube := some exCubeData
    x := [0, 1, 2]
    y := [0, 0, 0]
    s := [0, 1, 2]
    z := [0, 1] }

lemma getD_mem {α : Type} {l : List α} {d : α} :
    ∀ {i : Nat}, i < l.length → l.getD i d ∈ l := by
  induction l with
  | nil => intro i h; simp at h
  | cons a t ih =>
    intro i h
    cases i with
    | zero => simp [List.getD_cons_zero]
    | succ k =>
      simp only [List.getD_cons_succ]
      exact List.mem_cons_of_mem _ (ih (by simpa using h))

lemma length_cumsumFrom {α : Type} [Add α] (a : α) (l : List α) :
    (cumsumFrom a l).length = l.length + 1 := by
  induction l generalizing a with
  | nil => rfl
  | cons d ds ih => simp [cumsumFrom, ih]

lemma cumsumFrom_getD_zero {α : Type} [Add α] (a d : α) (l : List α) :
    (cumsumFrom a l).getD 0 d = a := by
  cases l <;> rfl

lemma cumsumFrom_getD_succ {α : Type} [Add α] (d : α) :
    ∀ (l : List α) (a : α) (i : Nat), i < l.length →
      (cumsumFrom a l).getD (i + 1) d =
        (cumsumFrom a l).getD i d + l.getD i d := by
  intro l
  induction l with
  | nil => intro a i h; simp at h
  | cons e es ih =>
    intro a i h
    cases i with
    | zero =>
      simp only [cumsumFrom, List.getD_cons_succ, List.getD_cons_zero,
        cumsumFrom_getD_zero]
    | succ k =>
      have hk : k < es.length := by simpa using h
      simp only [cumsumFrom, List.getD_cons_succ]
      exact ih (a + e) k hk

lemma cumsumFrom_all_le (a : ℝ) (l : List ℝ) (hl : ∀ x ∈ l, 0 ≤ x) :
    ∀ y ∈ cumsumFrom a l, a ≤ y := by
  induction l generalizing a with
  | nil => intro y hy; simp [cumsumFrom] at hy; simp [hy]
  | cons d ds ih =>
    intro y hy
    simp only [cumsumFrom, List.mem_cons] at hy
    rcases hy with rfl | hy
    · exact le_refl y
    · have hd : 0 ≤ d := hl d (by simp)
      have := ih (a + d) (fun x hx => hl x (by simp [hx])) y hy
      linarith

lemma cumsumFrom_mono (l : List ℝ) (hl : ∀ x ∈ l, 0 ≤ x) :
    ∀ (a : ℝ) (i j : Nat), i ≤ j → j < (cumsumFrom a l).length →
      (cumsumFrom a l).getD i 0 ≤ (cumsumFrom a l).getD j 0 := by
  induction l with
  | nil =>
    intro a i j hij hj
    simp only [cumsumFrom, List.length_cons, List.length_nil] at hj
    interval_cases j
    · interval_cases i
      exact le_refl _
  | cons d ds ih =>
    intro a i j hij hj
    cases j with
    | zero =>
      interval_cases i
      exact le_refl _
    | succ j' =>
      cases i with
      | zero =>
        simp only [cumsumFrom, List.getD_cons_zero, List.getD_cons_succ]
        have hd : 0 ≤ d := hl d (by simp)
        have hj' : j' < (cumsumFrom (a + d) ds).length := by
          simpa [cumsumFrom] using hj
        have hmem : (cumsumFrom (a + d) ds).getD j' 0 ∈ cumsumFrom (a + d) ds :=
          getD_mem hj'
        have := cumsumFrom_all_le (a + d) ds
          (fun x hx => hl x (by simp [hx])) _ hmem
        linarith
      | succ i' =>
        simp only [cumsumFrom, List.getD_cons_succ]
        exact ih (fun x hx => hl x (by simp [hx])) (a + d) i' j'
          (Nat.succ_le_succ_iff.mp hij) (by simpa [cumsumFrom] using hj)

lemma length_pairDists : ∀ (l : List (ℝ × ℝ)), (pairDists l).length = l.length - 1
  | [] => rfl
  | [_] => rfl
  | p :: q :: rest => by
    simp only [pairDists, List.length_cons]
    have := length_pairDists (q :: rest)
    simp only [List.length_cons] at this
    omega

lemma pairDists_getD :
    ∀ (l : List (ℝ × ℝ)) (i : Nat), i + 1 < l.length →
      (pairDists l).getD i 0 =
        ptDist (l.getD i (0, 0)) (l.getD (i + 1) (0, 0)) := by
  intro l
  induction l with
  | nil => intro i h; simp at h
  | cons p t ih =>
    intro i h
    match t, h with
    | q :: rest, h =>
      cases i with
      | zero => rfl
      | succ k =>
        have hk : k + 1 < (q :: rest).length := by simpa using h
        simp only [pairDists, List.getD_cons_succ]
        exact ih k hk

lemma pairDists_nonneg : ∀ (l : List (ℝ × ℝ)), ∀ x ∈ pairDists l, 0 ≤ x := by
  intro l
  induction l with
  | nil => intro x hx; simp [pairDists] at hx
  | cons p t ih =>
    intro x hx
    match t, hx with
    | [], hx => simp [pairDists] at hx
    | q :: rest, hx =>
      simp only [pairDists, List.mem_cons] at hx
      rcases hx with rfl | hx
      · exact Real.sqrt_nonneg _
      · exact ih x hx

lemma getD_zip :
    ∀ (xs ys : List ℝ) (i : Nat), i < xs.length → i < ys.length →
      (xs.zip ys).getD i (0, 0) = (xs.getD i 0, ys.getD i 0) := by
  intro xs
  induction xs with
  | nil => intro ys i h; simp at h
  | cons x xt ih =>
    intro ys i hx hy
    cases ys with
    | nil => simp at hy
    | cons y yt =>
      cases i with
      | zero => rfl
      | succ k =>
        simp only [List.zip_cons_cons, List.getD_cons_succ]
        exact ih yt k (by simpa using hx) (by simpa using hy)

lemma computeS_length (xs ys : List ℝ) (hlen : xs.length = ys.length) :
    (computeS xs ys).length = xs.length - 1 + 1 := by
  simp [computeS, length_cumsumFrom, length_pairDists, List.length_zip, hlen]

lemma computeS_getD_zero (xs ys : List ℝ) :
    (computeS xs ys).getD 0 0 = 0 :=
  cumsumFrom_getD_zero 0 0 _

lemma computeS_getD_succ (xs ys : List ℝ) (hlen : xs.length = ys.length)
    (i : Nat) (h : i + 1 < xs.length) :
    (computeS xs ys).getD (i + 1) 0 =
      (computeS xs ys).getD i 0 +
        Real.sqrt ((xs.getD (i + 1) 0 - xs.getD i 0) ^ 2 +
          (ys.getD (i + 1) 0 - ys.getD i 0) ^ 2) := by
  have hzip : (xs.zip ys).length = xs.length := by
    simp [List.length_zip, hlen]
  have hi : i < (pairDists (xs.zip ys)).length := by
    rw [length_pairDists, hzip]; omega
  have h1 := cumsumFrom_getD_succ (0 : ℝ) (pairDists (xs.zip ys)) 0 i hi
  have h2 := pairDists_getD (xs.zip ys) i (by omega : i + 1 < (xs.zip ys).length)
  have h3 := getD_zip xs ys i (by omega) (by omega)
  have h4 := getD_zip xs ys (i + 1) h (by omega)
  rw [computeS, h1, h2, h3, h4]
  rfl

lemma computeS_mono (xs ys : List ℝ) (i j : Nat) (hij : i ≤ j)
    (hj : j < (computeS xs ys).length) :
    (computeS xs ys).getD i 0 ≤ (computeS xs ys).getD j 0 :=
  cumsumFrom_mono (pairDists (xs.zip ys)) (pairDists_nonneg _) 0 i j hij hj

lemma foldl_min_mem {α : Type} [LinearOrder α] :
    ∀ (l : List α) (x : α), l.foldl min x ∈ x :: l := by
  intro l
  induction l with
  | nil => intro x; simp
  | cons a t ih =>
    intro x
    simp only [List.foldl_cons]
    have h := ih (min x a)
    rcases List.mem_cons.mp h with h1 | h1
    · rcases min_choice x a with h2 | h2
      · exact List.mem_cons.mpr (Or.inl (h1.trans h2))
      · exact List.mem_cons.mpr
          (Or.inr (List.mem_cons.mpr (Or.inl (h1.trans h2))))
    · exact List.mem_cons.mpr (Or.inr (List.mem_cons.mpr (Or.inr h1)))

lemma foldl_min_le {α : Type} [LinearOrder α] :
    ∀ (l : List α) (x y : α), y ∈ x :: l → l.foldl min x ≤ y := by
  intro l
  induction l with
  | nil => intro x y hy; simp at hy; simp [hy]
  | cons a t ih =>
    intro x y hy
    simp only [List.foldl_cons]
    rcases List.mem_cons.mp hy with h1 | hy'
    · rw [h1]
      exact le_trans (ih (min x a) _ (by simp)) (min_le_left x a)
    · rcases List.mem_cons.mp hy' with h2 | hy''
      · rw [h2]
        exact le_trans (ih (min x a) _ (by simp)) (min_le_right x a)
      · exact ih (min x a) y (by simp [hy''])

lemma foldl_max_mem {α : Type} [LinearOrder α] :
    ∀ (l : List α) (x : α), l.foldl max x ∈ x :: l := by
  intro l
  induction l with
  | nil => intro x; simp
  | cons a t ih =>
    intro x
    simp only [List.foldl_cons]
    have h := ih (max x a)
    rcases List.mem_cons.mp h with h1 | h1
    · rcases max_choice x a with h2 | h2
      · exact List.mem_cons.mpr (Or.inl (h1.trans h2))
      · exact List.mem_cons.mpr
          (Or.inr (List.mem_cons.mpr (Or.inl (h1.trans h2))))
    · exact List.mem_cons.mpr (Or.inr (List.mem_cons.mpr (Or.inr h1)))

lemma le_foldl_max {α : Type} [LinearOrder α] :
    ∀ (l : List α) (x y : α), y ∈ x :: l → y ≤ l.foldl max x := by
  intro l
  induction l with
  | nil => intro x y hy; simp at hy; simp [hy]
  | cons a t ih =>
    intro x y hy
    simp only [List.foldl_cons]
    rcases List.mem_cons.mp hy with h1 | hy'
    · rw [h1]
      exact le_trans (le_max_left x a) (ih (max x a) _ (by simp))
    · rcases List.mem_cons.mp hy' with h2 | hy''
      · rw [h2]
        exact le_trans (le_max_right x a) (ih (max x a) _ (by simp))
      · exact ih (max x a) y (by simp [hy''])

lemma npMin_spec {α : Type} [LinearOrder α] {l : List α} (h : l ≠ []) :
    ∃ m, npMin l = some m ∧ m ∈ l ∧ ∀ y ∈ l, m ≤ y := by
  cases l with
  | nil => exact absurd rfl h
  | cons a t =>
    exact ⟨t.foldl min a, rfl, foldl_min_mem t a, fun y hy => foldl_min_le t a y hy⟩

lemma npMax_spec {α : Type} [LinearOrder α] {l : List α} (h : l ≠ []) :
    ∃ m, npMax l = some m ∧ m ∈ l ∧ ∀ y ∈ l, y ≤ m := by
  cases l with
  | nil => exact absurd rfl h
  | cons a t =>
    exact ⟨t.foldl max a, rfl, foldl_max_mem t a, fun y hy => le_foldl_max t a y hy⟩

lemma npMin_flatten_const {α β : Type} [LinearOrder α] (s : List α)
    (z : List β) (hz : z ≠ []) :
    npMin ((z.map fun _ => s).flatten) = npMin s := by
  rcases List.exists_cons_of_ne_nil hz with ⟨z0, zt, rfl⟩
  cases hs : s with
  | nil =>
    have hfl : ((z0 :: zt).map fun _ => ([] : List α)).flatten = [] := by simp
    rw [hs] at *
    rw [hfl]
  | cons a t =>
    rw [hs] at *
    obtain ⟨m, hm, hmem, hle⟩ := npMin_spec (l := a :: t) (by simp)
    have hfl : ((z0 :: zt).map fun _ => a :: t).flatten ≠ [] := by
      simp [List.flatten]
    obtain ⟨m2, hm2, hmem2, hle2⟩ := npMin_spec hfl
    have hmem2s : m2 ∈ a :: t := by
      rcases List.mem_flatten.mp hmem2 with ⟨row, hrow, hmrow⟩
      rcases List.mem_map.mp hrow with ⟨_, _, rfl⟩
      exact hmrow
    have hmemfl : m ∈ ((z0 :: zt).map fun _ => a :: t).flatten :=
      List.mem_flatten.mpr ⟨a :: t, List.mem_map.mpr ⟨z0, by simp⟩, hmem⟩
    rw [hm, hm2, le_antisymm (hle2 m hmemfl) (hle m2 hmem2s)]

lemma npMax_flatten_const {α β : Type} [LinearOrder α] (s : List α)
    (z : List β) (hz : z ≠ []) :
    npMax ((z.map fun _ => s).flatten) = npMax s := by
  rcases List.exists_cons_of_ne_nil hz with ⟨z0, zt, rfl⟩
  cases hs : s with
  | nil =>
    have hfl : ((z0 :: zt).map fun _ => ([] : List α)).flatten = [] := by simp
    rw [hs] at *
    rw [hfl]
  | cons a t =>
    rw [hs] at *
    obtain ⟨m, hm, hmem, hle⟩ := npMax_spec (l := a :: t) (by simp)
    have hfl : ((z0 :: zt).map fun _ => a :: t).flatten ≠ [] := by
      simp [List.flatten]
    obtain ⟨m2, hm2, hmem2, hle2⟩ := npMax_spec hfl
    have hmem2s : m2 ∈ a :: t := by
      rcases List.mem_flatten.mp hmem2 with ⟨row, hrow, hmrow⟩
      rcases List.mem_map.mp hrow with ⟨_, _, rfl⟩
      exact hmrow
    have hmemfl : m ∈ ((z0 :: zt).map fun _ => a :: t).flatten :=
      List.mem_flatten.mpr ⟨a :: t, List.mem_map.mpr ⟨z0, by simp⟩, hmem⟩
    rw [hm, hm2, le_antisymm (hle m2 hmem2s) (hle2 m hmemfl)]

lemma npMin_isSome {α : Type} [LinearOrder α] {l : List α} (h : l ≠ []) :
    ∃ m, npMin l = some m := by
  cases l with
  | nil => exact absurd rfl h
  | cons a t => exact ⟨t.foldl min a, rfl⟩

lemma npMax_isSome {α : Type} [LinearOrder α] {l : List α} (h : l ≠ []) :
    ∃ m, npMax l = some m := by
  cases l with
  | nil => exact absurd rfl h
  | cons a t => exact ⟨t.foldl max a, rfl⟩

lemma mem_psvd_not_spacetime {k : String} (h : k ∈ preserved_names) :
    k ∉ spacetime_names := by
  have : ∀ x ∈ preserved_names, x ∉ spacetime_names := by decide
  exact this k h

lemma mem_strat_not_spacetime {k : String} (h : k ∈ stratigraphy_names) :
    k ∉ spacetime_names := by
  have : ∀ x ∈ stratigraphy_names, x ∉ spacetime_names := by decide
  exact this k h

lemma mem_strat_not_psvd {k : String} (h : k ∈ stratigraphy_names) :
    k ∉ preserved_names := by
  have : ∀ x ∈ stratigraphy_names, x ∉ preserved_names := by decide
  exact this k h

lemma foldl_max_lt {n : Nat} :
    ∀ (l : List Nat) (acc : Nat), acc < n → (∀ r ∈ l, r < n) →
      l.foldl max acc < n := by
  intro l
  induction l with
  | nil => intro acc h _; exact h
  | cons a t ih =>
    intro acc hacc hall
    simp only [List.foldl_cons]
    exact ih (max acc a) (max_lt hacc (hall a (by simp)))
      (fun r hr => hall r (by simp [hr]))

lemma getD_of_lt {α : Type} (l : List α) (d : α) (i : Nat) (h : i < l.length) :
    l.getD i d = l[i] := by
  rw [List.getD_eq_getElem?_getD, List.getElem?_eq_getElem h]
  rfl

/-- Claim C1: the code contradicts the claim (and its own docstring).  A
PathSection built from the path consisting of the single (x, y) pair
(1, 2) yields the trace [(2, 1)], because _compute_section_coords assigns
self._x from path column 1 and self._y from path column 0; the trace is
the column swap of the supplied path, not the path verbatim. -/
theorem path_trace_swaps_columns :
    PathSection.trace [((1 : Int), 2)] = [(2, 1)] ∧
    PathSection.trace [((1 : Int), 2)] ≠ [(1, 2)] := by
  decide

/-- Claim C3, amended to sections with at least one coordinate point: for
equal-length coordinate arrays xs, ys with M = len xs at least 1, the
along-section coordinate of _compute_section_attrs has length M, starts at
0, increases by the Euclidean distance between consecutive points at each
step, and is monotonically non-decreasing. -/
theorem along_section_coordinate_amended (xs ys : List ℝ)
    (hlen : xs.length = ys.length) (hne : xs ≠ []) :
    (computeS xs ys).length = xs.length ∧
    (computeS xs ys).getD 0 0 = 0 ∧
    (∀ i : Nat, i + 1 < xs.length →
      (computeS xs ys).getD (i + 1) 0 =
        (computeS xs ys).getD i 0 +
          Real.sqrt ((xs.getD (i + 1) 0 - xs.getD i 0) ^ 2 +
            (ys.getD (i + 1) 0 - ys.getD i 0) ^ 2)) ∧
    (∀ i j : Nat, i ≤ j → j < (computeS xs ys).length →
      (computeS xs ys).getD i 0 ≤ (computeS xs ys).getD j 0) := by
  have hlen1 : 1 ≤ xs.length := by
    cases xs with
    | nil => exact absurd rfl hne
    | cons a t => simp
  refine ⟨?_, computeS_getD_zero xs ys, ?_, ?_⟩
  · rw [computeS_length xs ys hlen]; omega
  · intro i h
    exact computeS_getD_succ xs ys hlen i h
  · intro i j hij hj
    exact computeS_mono xs ys i j hij hj

/-- Claim C3 witness: the amended claim evaluated at the concrete
connected section coordinates xs = [0, 3], ys = [0, 4]. -/
theorem along_section_coordinate_amended_witness :
    ([(0 : ℝ), 3].length = [(0 : ℝ), 4].length) ∧
    ((computeS [0, 3] [0, 4]).length = 2 ∧
     (computeS [0, 3] [0, 4]).getD 0 0 = 0 ∧
     (∀ i : Nat, i + 1 < [(0 : ℝ), 3].length →
       (computeS [0, 3] [0, 4]).getD (i + 1) 0 =
         (computeS [0, 3] [0, 4]).getD i 0 +
           Real.sqrt (([(0 : ℝ), 3].getD (i + 1) 0 - [(0 : ℝ), 3].getD i 0) ^ 2 +
             ([(0 : ℝ), 4].getD (i + 1) 0 - [(0 : ℝ), 4].getD i 0) ^ 2)) ∧
     (∀ i j : Nat, i ≤ j → j < (computeS [0, 3] [0, 4]).length →
       (computeS [0, 3] [0, 4]).getD i 0 ≤ (computeS [0, 3] [0, 4]).getD j 0)) :=
  ⟨rfl, along_section_coordinate_amended [0, 3] [0, 4] rfl (List.cons_ne_nil 0 [3])⟩

/-- Claim C3 counterexample at M = 0: a connected section whose coordinate
arrays are empty (for example a PathSection over an empty path) has
s = np.cumsum(np.hstack((0, empty))) of length 1, not length M = 0;
the claim asserts length M for every connected Section. -/
theorem along_section_length_empty_cex :
    (computeS [] []).length = 1 ∧ ([] : List ℝ).length = 0 :=
  ⟨rfl, rfl⟩

/-- Claim C4, amended to volumes of horizontal extent nx at least 1: the
strike coordinates are x = 0..nx-1 in order and y constant equal to y0,
both of length nx, and the along-section coordinate has length nx, starts
at 0 and increases by exactly 1 per step. -/
theorem strike_section_amended (nx y0 : Nat) (h1 : 1 ≤ nx) :
    (StrikeSection.compute_section_coords nx y0).1.length = nx ∧
    (∀ i : Nat, i < nx →
      (StrikeSection.compute_section_coords nx y0).1.getD i 0 = i) ∧
    (StrikeSection.compute_section_coords nx y0).2.length = nx ∧
    (∀ e ∈ (StrikeSection.compute_section_coords nx y0).2, e = y0) ∧
    (strikeS nx y0).length = nx ∧
    (strikeS nx y0).getD 0 0 = 0 ∧
    (∀ i : Nat, i + 1 < nx →
      (strikeS nx y0).getD (i + 1) 0 = (strikeS nx y0).getD i 0 + 1) := by
  have hxlen : ((List.range nx).map fun n : Nat => (n : ℝ)).length = nx := by simp
  have hylen : ((List.replicate nx y0).map fun n : Nat => (n : ℝ)).length = nx := by
    simp
  have hgx : ∀ i : Nat, i < nx →
      ((List.range nx).map fun n : Nat => (n : ℝ)).getD i 0 = (i : ℝ) := by
    intro i hi
    rw [getD_of_lt _ _ i (by simpa using hi)]
    simp
  have hgy : ∀ i : Nat, i < nx →
      ((List.replicate nx y0).map fun n : Nat => (n : ℝ)).getD i 0 = (y0 : ℝ) := by
    intro i hi
    rw [getD_of_lt _ _ i (by simpa using hi)]
    simp
  refine ⟨by simp [StrikeSection.compute_section_coords], ?_,
    by simp [StrikeSection.compute_section_coords], ?_, ?_, ?_, ?_⟩
  · intro i hi
    simp only [StrikeSection.compute_section_coords]
    rw [getD_of_lt _ _ i (by simpa using hi)]
    simp
  · intro e he
    simp only [StrikeSection.compute_section_coords] at he
    exact List.eq_of_mem_replicate he
  · rw [strikeS, computeS_length _ _ (by simp [StrikeSection.compute_section_coords])]
    simp only [StrikeSection.compute_section_coords, List.length_map,
      List.length_range]
    omega
  · exact computeS_getD_zero _ _
  · intro i h
    rw [strikeS]
    simp only [StrikeSection.compute_section_coords]
    rw [computeS_getD_succ _ _ (by simp) i (by simpa using h)]
    congr 1
    rw [hgx (i + 1) h, hgx i (by omega), hgy (i + 1) h, hgy i (by omega)]
    have hone : ((i : ℝ) + 1) - (i : ℝ) = 1 := by ring
    push_cast
    rw [hone, sub_self]
    norm_num

/-- Claim C4 witness: the amended claim evaluated at nx = 3, y0 = 2. -/
theorem strike_section_amended_witness :
    (1 ≤ 3) ∧
    ((StrikeSection.compute_section_coords 3 2).1.length = 3 ∧
     (∀ i : Nat, i < 3 →
       (StrikeSection.compute_section_coords 3 2).1.getD i 0 = i) ∧
     (StrikeSection.compute_section_coords 3 2).2.length = 3 ∧
     (∀ e ∈ (StrikeSection.compute_section_coords 3 2).2, e = 2) ∧
     (strikeS 3 2).length = 3 ∧
     (strikeS 3 2).getD 0 0 = 0 ∧
     (∀ i : Nat, i + 1 < 3 →
       (strikeS 3 2).getD (i + 1) 0 = (strikeS 3 2).getD i 0 + 1)) :=
  ⟨by decide, strike_section_amended 3 2 (by decide)⟩

/-- Claim C4 counterexample at nx = 0: over a volume of zero horizontal
extent the strike coordinate arrays are empty, yet the along-section
coordinate has length 1, contradicting len s = nx. -/
theorem strike_s_length_zero_cex :
    (strikeS 0 5).length = 1 ∧ ¬((strikeS 0 5).length = 0) := by
  have h : (strikeS 0 5).length = 1 := rfl
  exact ⟨h, by rw [h]; exact one_ne_zero⟩

/-- Claim C2, amended: for a data variable that knows stratigraphy, a
stratigraphy-style get_display_arrays returns a densified array whose row
count is at most Z, an X mesh whose ROW count (not column count, as the
claim stated) equals the densified row count with every row equal to s,
and a Y mesh equal to psvd_flld truncated to the densified row count.
The bound on the row count uses the spec-modelled bundle property that the
compacted sparse row coordinates z_sp lie below Z. -/
theorem strat_display_arrays_amended {α : Type} [LinearOrderedField α]
    (v : DataSectionVariable α) (sa : StratAttr α) (key : String)
    (hsa : v.strat_attr = some sa)
    (hkey : key ∈ stratigraphy_names)
    (hlen1 : (maskSelect v.data sa.psvd_idx).length = sa.z_sp.length)
    (hlen2 : (maskSelect v.data sa.psvd_idx).length = sa.s_sp.length)
    (hne : sa.z_sp ≠ [])
    (hz : ∀ r ∈ sa.z_sp, r < v.z.length) :
    ∃ d : DispArrays α,
      v.get_display_arrays (some key) = .ok d ∧
      d.arr.length ≤ v.z.length ∧
      d.X.length = d.arr.length ∧
      (∀ row ∈ d.X, row = v.s) ∧
      d.Y = sa.psvd_flld.take d.arr.length := by
  have hzpos : 0 < v.z.length := by
    rcases List.exists_cons_of_ne_nil hne with ⟨r, rs, hrs⟩
    have := hz r (by rw [hrs]; simp)
    omega
  have hmax : sa.z_sp.foldl max 0 < v.z.length := foldl_max_lt sa.z_sp 0 hzpos hz
  have hd0 : (maskSelect v.data sa.psvd_idx).length ≠ 0 := by
    rw [hlen1]
    simpa using hne
  have hcoo : coo_matrix (maskSelect v.data sa.psvd_idx) sa.z_sp sa.s_sp =
      .ok ⟨maskSelect v.data sa.psvd_idx, sa.z_sp, sa.s_sp,
           (sa.z_sp.foldl max 0 + 1, sa.s_sp.foldl max 0 + 1)⟩ := by
    rw [coo_matrix, if_pos ⟨hlen1, hlen2⟩, if_neg hd0]
  refine ⟨⟨(Coo.toarray ⟨maskSelect v.data sa.psvd_idx, sa.z_sp, sa.s_sp,
      (sa.z_sp.foldl max 0 + 1, sa.s_sp.foldl max 0 + 1)⟩), none,
      List.replicate (sa.z_sp.foldl max 0 + 1) v.s,
      sa.psvd_flld.take (sa.z_sp.foldl max 0 + 1)⟩, ?_, ?_, ?_, ?_, ?_⟩
  · rw [DataSectionVariable.get_display_arrays, Option.getD_some]
    simp only [DataSectionVariable.get_display_arrays_st,
      if_neg (mem_strat_not_spacetime hkey), if_neg (mem_strat_not_psvd hkey),
      if_pos hkey]
    simp only [DataSectionVariable.as_stratigraphy, hsa, hcoo, Except.bind]
  · simp only [Coo.toarray, List.length_map, List.length_range]
    omega
  · simp only [Coo.toarray, List.length_replicate, List.length_map,
      List.length_range]
  · intro row hrow
    exact List.eq_of_mem_replicate hrow
  · simp only [Coo.toarray, List.length_map, List.length_range]

/-- Claim C2 witness: the amended claim evaluated at the concrete variable
exVarKnows with bundle exStratAttr. -/
theorem strat_display_arrays_amended_witness :
    (exVarKnows.strat_attr = some exStratAttr) ∧
    (∃ d : DispArrays ℚ,
      exVarKnows.get_display_arrays (some "stratigraphy") = .ok d ∧
      d.arr.length ≤ exVarKnows.z.length ∧
      d.X.length = d.arr.length ∧
      (∀ row ∈ d.X, row = exVarKnows.s) ∧
      d.Y = exStratAttr.psvd_flld.take d.arr.length) :=
  ⟨rfl, strat_display_arrays_amended exVarKnows exStratAttr "stratigraphy" rfl
    (by decide) (by decide) (by decide) (by decide) (by decide)⟩

/-- Claim C2 counterexample: on the concrete variable exVarKnows (M = 3,
one preserved cell compacting to a single row), the stratigraphy display
X mesh has 3 columns while the densified array has 1 row, refuting the
claim that the X mesh COLUMN count equals the densified row count. -/
theorem strat_display_x_mesh_cex :
    ((exVarKnows.get_display_arrays (some "stratigraphy")).toOption.map
      fun d => ((d.X.headD []).length, d.arr.length)) = some (3, 1) ∧
    (3 : Nat) ≠ 1 := by
  constructor
  · decide
  · decide

/-- Claim C5: for a section connected to a data-kind cube, extracting any
variable and requesting spacetime display arrays returns exactly the
direct volume slice at the section footprint, paired with the S and Z
meshes, all of shape (Z, M). -/
theorem spacetime_roundtrip {α : Type} [LinearOrderedField α]
    (c : Cube α) (sec : BaseSection α) (var key : String)
    (hc : sec.cube = some c) (hkind : c.kind = CubeKind.DataCube)
    (_hvar : var ∈ c.varList) (hkey : key ∈ spacetime_names)
    (hnt : c.nt = c.z.length)
    (hxy : sec.y.length = sec.x.length) (hs : sec.s.length = sec.x.length) :
    ∃ v : DataSectionVariable α,
      sec.getitem var = .ok (.dataVar v) ∧
      v.get_display_arrays (some key) =
        .ok ⟨sliceCube c var sec.y sec.x, none,
             meshS sec.s c.z, meshZ sec.s c.z⟩ ∧
      (sliceCube c var sec.y sec.x).length = c.z.length ∧
      (∀ row ∈ sliceCube c var sec.y sec.x, row.length = sec.x.length) ∧
      (meshS sec.s c.z).length = c.z.length ∧
      (∀ row ∈ meshS sec.s c.z, row.length = sec.x.length) ∧
      (meshZ sec.s c.z).length = c.z.length ∧
      (∀ row ∈ meshZ sec.s c.z, row.length = sec.x.length) := by
  have hlen1 : (sliceCube c var sec.y sec.x).length = c.z.length := by
    simp [sliceCube, hnt]
  have hrow1 : ∀ row ∈ sliceCube c var sec.y sec.x,
      row.length = sec.x.length := by
    intro row hrow
    simp only [sliceCube, List.mem_map] at hrow
    obtain ⟨t, _, rfl⟩ := hrow
    simp [List.length_zip, hxy]
  have hlen2 : (meshS sec.s c.z).length = c.z.length := by simp [meshS]
  have hrow2 : ∀ row ∈ meshS sec.s c.z, row.length = sec.x.length := by
    intro row hrow
    simp only [meshS, List.mem_map] at hrow
    obtain ⟨t, _, rfl⟩ := hrow
    exact hs
  have hlen3 : (meshZ sec.s c.z).length = c.z.length := by simp [meshZ]
  have hrow3 : ∀ row ∈ meshZ sec.s c.z, row.length = sec.x.length := by
    intro row hrow
    simp only [meshZ, List.mem_map] at hrow
    obtain ⟨t, _, rfl⟩ := hrow
    simp [hs]
  have hdisp : ∀ v : DataSectionVariable α,
      v.s = sec.s → v.z = c.z → v.data = sliceCube c var sec.y sec.x →
      v.get_display_arrays (some key) =
        .ok ⟨sliceCube c var sec.y sec.x, none,
             meshS sec.s c.z, meshZ sec.s c.z⟩ := by
    intro v hvs hvz hvd
    rw [DataSectionVariable.get_display_arrays, Option.getD_some]
    simp only [DataSectionVariable.get_display_arrays_st, if_pos hkey]
    rw [hvs, hvz, hvd]
  cases hks : c.knows_stratigraphy with
  | true =>
    refine ⟨{ data := sliceCube c var sec.y sec.x
              s := sec.s
              z := c.z
              psvd_mask := some (slicePsvd c sec.y sec.x)
              strat_attr := some (c.strat_attr_of sec.y sec.x) },
      ?_, hdisp _ rfl rfl rfl, hlen1, hrow1, hlen2, hrow2, hlen3, hrow3⟩
    simp [BaseSection.getitem, hc, hkind, hks]
  | false =>
    refine ⟨{ data := sliceCube c var sec.y sec.x
              s := sec.s
              z := c.z
              psvd_mask := none
              strat_attr := none },
      ?_, hdisp _ rfl rfl rfl, hlen1, hrow1, hlen2, hrow2, hlen3, hrow3⟩
    simp [BaseSection.getitem, hc, hkind, hks]

/-- Claim C5 witness: the round trip evaluated on the concrete cube
exCubeData and section exSec, for the variable eta and key spacetime. -/
theorem spacetime_roundtrip_witness :
    ∃ v : DataSectionVariable ℚ,
      exSec.getitem "eta" = .ok (.dataVar v) ∧
      v.get_display_arrays (some "spacetime") =
        .ok ⟨sliceCube exCubeData "eta" exSec.y exSec.x, none,
             meshS exSec.s exCubeData.z, meshZ exSec.s exCubeData.z⟩ ∧
      (sliceCube exCubeData "eta" exSec.y exSec.x).length =
        exCubeData.z.length ∧
      (∀ row ∈ sliceCube exCubeData "eta" exSec.y exSec.x,
        row.length = exSec.x.length) ∧
      (meshS exSec.s exCubeData.z).length = exCubeData.z.length ∧
      (∀ row ∈ meshS exSec.s exCubeData.z, row.length = exSec.x.length) ∧
      (meshZ exSec.s exCubeData.z).length = exCubeData.z.length ∧
      (∀ row ∈ meshZ exSec.s exCubeData.z, row.length = exSec.x.length) :=
  spacetime_roundtrip exCubeData exSec "eta" "spacetime" rfl rfl
    (by decide) (by decide) rfl rfl rfl

/-- Claim C6: preserved and stratigraphy views on a data variable that
lacks stratigraphy knowledge raise the capability AttributeError and never
return a value, and spacetime or preserved display arrays on a
stratigraphy-only variable always raise the capability AttributeError. -/
theorem capability_errors {α : Type} [LinearOrderedField α]
    (v : DataSectionVariable α) (w : StratigraphySectionVariable α)
    (k1 k2 k3 : String)
    (hv : v.strat_attr = none)
    (h1 : k1 ∈ preserved_names) (h2 : k2 ∈ stratigraphy_names)
    (h3 : k3 ∈ spacetime_names ∨ k3 ∈ preserved_names) :
    v.as_preserved = .error (.attributeError noPreservationMsg) ∧
    v.get_display_arrays (some k1) =
      .error (.attributeError noPreservationMsg) ∧
    v.get_display_arrays (some k2) =
      .error (.attributeError noPreservationMsg) ∧
    w.get_display_arrays (some k3) =
      .error (.attributeError noSpacetimeMsg) := by
  have hkn : v.knows_stratigraphy = false := by
    simp [DataSectionVariable.knows_stratigraphy, hv]
  have hap : v.as_preserved = .error (.attributeError noPreservationMsg) := by
    simp [DataSectionVariable.as_preserved, hkn]
  refine ⟨hap, ?_, ?_, ?_⟩
  · rw [DataSectionVariable.get_display_arrays, Option.getD_some]
    simp only [DataSectionVariable.get_display_arrays_st,
      if_neg (mem_psvd_not_spacetime h1), if_pos h1]
    rw [hap]
    rfl
  · rw [DataSectionVariable.get_display_arrays, Option.getD_some]
    simp only [DataSectionVariable.get_display_arrays_st,
      if_neg (mem_strat_not_spacetime h2), if_neg (mem_strat_not_psvd h2),
      if_pos h2]
    simp [DataSectionVariable.as_stratigraphy, hv, Except.bind]
  · rw [StratigraphySectionVariable.get_display_arrays, Option.getD_some]
    rcases h3 with h3 | h3
    · simp only [StratigraphySectionVariable.get_display_arrays_st, if_pos h3]
    · simp only [StratigraphySectionVariable.get_display_arrays_st,
        if_neg (mem_psvd_not_spacetime h3), if_pos h3]

/-- Claim C6 witness: the capability errors evaluated at the concrete
variables exVarNoStrat and exStratVar with keys preserved, strat, full. -/
theorem capability_errors_witness :
    (exVarNoStrat.strat_attr = none) ∧
    (exVarNoStrat.as_preserved =
      .error (.attributeError noPreservationMsg) ∧
     exVarNoStrat.get_display_arrays (some "preserved") =
      .error (.attributeError noPreservationMsg) ∧
     exVarNoStrat.get_display_arrays (some "strat") =
      .error (.attributeError noPreservationMsg) ∧
     exStratVar.get_display_arrays (some "full") =
      .error (.attributeError noSpacetimeMsg)) :=
  ⟨rfl, capability_errors exVarNoStrat exStratVar "preserved" "strat" "full"
    rfl (by decide) (by decide) (Or.inl (by decide))⟩

/-- Claim C7: constructing a Section with two positional arguments raises
ValueError; constructing with zero arguments yields an unconnected section
on which every extraction raises the not-connected AttributeError; and
extracting from a section bound to a cube of unrecognized type raises
TypeError. -/
theorem construction_connection_errors {α : Type} [LinearOrderedField α]
    (computeCoords : Cube α → List Nat × List Nat × List α)
    (c1 c2 c : Cube α) (var : String)
    (hkd : c.kind ≠ CubeKind.DataCube)
    (hks : c.kind ≠ CubeKind.StratigraphyCube) :
    BaseSection.init computeCoords [c1, c2] =
      .error (.valueError tooManyArgsMsg) ∧
    (∃ s0 : BaseSection α,
      BaseSection.init computeCoords ([] : List (Cube α)) = .ok s0 ∧
      s0.cube = none ∧
      ∀ w : String,
        s0.getitem w = .error (.attributeError notConnectedMsg)) ∧
    (∃ s1 : BaseSection α,
      BaseSection.init computeCoords [c] = .ok s1 ∧
      s1.getitem var = .error (.typeError unknownCubeMsg)) := by
  refine ⟨rfl, ⟨{ cube := none, x := [], y := [], s := [], z := [] },
    rfl, rfl, fun w => rfl⟩, ?_⟩
  refine ⟨{ cube := some c
            x := (computeCoords c).1
            y := (computeCoords c).2.1
            s := (computeCoords c).2.2
            z := c.z }, rfl, ?_⟩
  simp only [BaseSection.getitem]
  rw [if_neg hkd, if_neg hks]

/-- Claim C7 witness: the construction and connection errors evaluated
with concrete cubes (exCubeData twice, and exCubeOther whose kind is
neither data nor stratigraphy). -/
theorem construction_connection_errors_witness :
    (BaseSection.init (fun _ => ([], [], [])) [exCubeData, exCubeData] =
      .error (.valueError tooManyArgsMsg)) ∧
    (∃ s0 : BaseSection ℚ,
      BaseSection.init (fun _ => ([], [], [])) ([] : List (Cube ℚ)) =
        .ok s0 ∧
      s0.cube = none ∧
      ∀ w : String,
        s0.getitem w = .error (.attributeError notConnectedMsg)) ∧
    (∃ s1 : BaseSection ℚ,
      BaseSection.init (fun _ => ([], [], [])) [exCubeOther] = .ok s1 ∧
      s1.getitem "eta" = .error (.typeError unknownCubeMsg)) :=
  construction_connection_errors (fun _ => ([], [], []))
    exCubeData exCubeData exCubeOther "eta" (by decide) (by decide)

/-- Claim C8: an unrecognized style key makes get_display_arrays,
get_display_lines and get_display_limits raise ValueError on both
variants, and a missing style resolves to the variant default: spacetime
for data variables and stratigraphy for stratigraphy-only variables. -/
theorem style_key_errors_and_defaults {α : Type} [LinearOrderedField α]
    (v : DataSectionVariable α) (w : StratigraphySectionVariable α)
    (k : String)
    (h1 : k ∉ spacetime_names) (h2 : k ∉ preserved_names)
    (h3 : k ∉ stratigraphy_names) :
    v.get_display_arrays (some k) = .error (.valueError (badStyleMsg k)) ∧
    v.get_display_lines (some k) = .error (.valueError (badStyleMsg k)) ∧
    v.get_display_limits (some k) = .error (.valueError (badStyleMsg k)) ∧
    w.get_display_arrays (some k) = .error (.valueError (badStyleMsg k)) ∧
    w.get_display_lines (some k) = .error (.valueError (badStyleMsg k)) ∧
    w.get_display_limits (some k) = .error (.valueError (badStyleMsg k)) ∧
    v.get_display_arrays none = v.get_display_arrays (some "spacetime") ∧
    v.get_display_lines none = v.get_display_lines (some "spacetime") ∧
    v.get_display_limits none = v.get_display_limits (some "spacetime") ∧
    w.get_display_arrays none = w.get_display_arrays (some "stratigraphy") ∧
    w.get_display_lines none = w.get_display_lines (some "stratigraphy") ∧
    w.get_display_limits none = w.get_display_limits (some "stratigraphy") := by
  refine ⟨?_, ?_, ?_, ?_, ?_, ?_, rfl, rfl, rfl, rfl, rfl, rfl⟩
  · rw [DataSectionVariable.get_display_arrays, Option.getD_some]
    simp only [DataSectionVariable.get_display_arrays_st,
      if_neg h1, if_neg h2, if_neg h3]
  · rw [DataSectionVariable.get_display_lines, Option.getD_some]
    simp only [DataSectionVariable.get_display_lines_st,
      if_neg h1, if_neg h2, if_neg h3]
  · rw [DataSectionVariable.get_display_limits, Option.getD_some]
    simp only [DataSectionVariable.get_display_limits_st,
      if_neg (fun h : _ ∨ _ => h.elim h1 h2), if_neg h3]
  · rw [StratigraphySectionVariable.get_display_arrays, Option.getD_some]
    simp only [StratigraphySectionVariable.get_display_arrays_st,
      if_neg h1, if_neg h2, if_neg h3]
  · rw [StratigraphySectionVariable.get_display_lines, Option.getD_some]
    simp only [StratigraphySectionVariable.get_display_lines_st,
      if_neg h1, if_neg h2, if_neg h3]
  · rw [StratigraphySectionVariable.get_display_limits, Option.getD_some]
    simp only [StratigraphySectionVariable.get_display_limits_st,
      if_neg h1, if_neg h2, if_neg h3]

/-- Claim C8 witness: the unrecognized key bogus raises ValueError on all
six method-variant combinations, and the defaults agree, on the concrete
variables exVarNoStrat and exStratVar. -/
theorem style_key_errors_and_defaults_witness :
    ("bogus" ∉ spacetime_names) ∧
    (exVarNoStrat.get_display_arrays (some "bogus") =
      .error (.valueError (badStyleMsg "bogus")) ∧
     exVarNoStrat.get_display_lines (some "bogus") =
      .error (.valueError (badStyleMsg "bogus")) ∧
     exVarNoStrat.get_display_limits (some "bogus") =
      .error (.valueError (badStyleMsg "bogus")) ∧
     exStratVar.get_display_arrays (some "bogus") =
      .error (.valueError (badStyleMsg "bogus")) ∧
     exStratVar.get_display_lines (some "bogus") =
      .error (.valueError (badStyleMsg "bogus")) ∧
     exStratVar.get_display_limits (some "bogus") =
      .error (.valueError (badStyleMsg "bogus")) ∧
     exVarNoStrat.get_display_arrays none =
      exVarNoStrat.get_display_arrays (some "spacetime") ∧
     exVarNoStrat.get_display_lines none =
      exVarNoStrat.get_display_lines (some "spacetime") ∧
     exVarNoStrat.get_display_limits none =
      exVarNoStrat.get_display_limits (some "spacetime") ∧
     exStratVar.get_display_arrays none =
      exStratVar.get_display_arrays (some "stratigraphy") ∧
     exStratVar.get_display_lines none =
      exStratVar.get_display_lines (some "stratigraphy") ∧
     exStratVar.get_display_limits none =
      exStratVar.get_display_limits (some "stratigraphy")) :=
  ⟨by decide, style_key_errors_and_defaults exVarNoStrat exStratVar "bogus"
    (by decide) (by decide) (by decide)⟩

/-- Claim C9: for a data variable knowing stratigraphy, the
stratigraphy-style display limits are (min S, max S, min strata,
1.5 times max strata); the horizontal bounds are the min and max of the S
mesh, which equal the min and max of the s coordinate itself. -/
theorem strat_display_limits_scaling {α : Type} [LinearOrderedField α]
    (v : DataSectionVariable α) (sa : StratAttr α) (key : String)
    (hsa : v.strat_attr = some sa) (hkey : key ∈ stratigraphy_names)
    (hs : v.s ≠ []) (hz : v.z ≠ []) (hstr : sa.strata.flatten ≠ []) :
    ∃ a b c d : α,
      npMin v.s = some a ∧ npMax v.s = some b ∧
      npMin sa.strata.flatten = some c ∧ npMax sa.strata.flatten = some d ∧
      v.get_display_limits (some key) = .ok (a, b, c, d * (3 / 2)) := by
  obtain ⟨a, ha⟩ := npMin_isSome hs
  obtain ⟨b, hb⟩ := npMax_isSome hs
  obtain ⟨c, hcm⟩ := npMin_isSome hstr
  obtain ⟨d, hd⟩ := npMax_isSome hstr
  refine ⟨a, b, c, d, ha, hb, hcm, hd, ?_⟩
  rw [DataSectionVariable.get_display_limits, Option.getD_some]
  simp only [DataSectionVariable.get_display_limits_st,
    if_neg (fun h : _ ∨ _ =>
      h.elim (mem_strat_not_spacetime hkey) (mem_strat_not_psvd hkey)),
    if_pos hkey, hsa, meshS]
  rw [npMin_flatten_const v.s v.z hz, npMax_flatten_const v.s v.z hz,
    ha, hb, hcm, hd]

/-- Claim C9 witness: the stratigraphy display limits evaluated on the
concrete variable exVarKnows with bundle exStratAttr. -/
theorem strat_display_limits_scaling_witness :
    (exVarKnows.strat_attr = some exStratAttr) ∧
    (∃ a b c d : ℚ,
      npMin exVarKnows.s = some a ∧ npMax exVarKnows.s = some b ∧
      npMin exStratAttr.strata.flatten = some c ∧
      npMax exStratAttr.strata.flatten = some d ∧
      exVarKnows.get_display_limits (some "stratigraphy") =
        .ok (a, b, c, d * (3 / 2))) :=
  ⟨rfl, strat_display_limits_scaling exVarKnows exStratAttr "stratigraphy"
    rfl (by decide) (by decide) (by decide) (by decide)⟩

/-- Claim C10 (implicit behavior): on a data variable without stratigraphy
knowledge, a preserved-style get_display_limits does not raise the
capability error: it returns the same spacetime bounding box, although
preserved-style get_display_arrays and get_display_lines both raise. -/
theorem preserved_limits_no_capability_check {α : Type}
    [LinearOrderedField α] (v : DataSectionVariable α) (key : String)
    (hv : v.strat_attr = none) (hkey : key ∈ preserved_names)
    (hs : v.s ≠ []) (hz : v.z ≠ []) :
    v.get_display_limits (some key) =
      v.get_display_limits (some "spacetime") ∧
    (∃ bbox : α × α × α × α,
      v.get_display_limits (some key) = .ok bbox) ∧
    v.get_display_arrays (some key) =
      .error (.attributeError noPreservationMsg) ∧
    v.get_display_lines (some key) =
      .error (.attributeError noPreservationMsg) := by
  have hkn : v.knows_stratigraphy = false := by
    simp [DataSectionVariable.knows_stratigraphy, hv]
  have hap : v.as_preserved = .error (.attributeError noPreservationMsg) := by
    simp [DataSectionVariable.as_preserved, hkn]
  have hsp : ("spacetime" : String) ∈ spacetime_names := by decide
  have hfS : (meshS v.s v.z).flatten ≠ [] := by
    rcases List.exists_cons_of_ne_nil hz with ⟨z0, zt, hz'⟩
    rcases List.exists_cons_of_ne_nil hs with ⟨s0, st, hs'⟩
    simp [meshS, hz', hs']
  have hfZ : (meshZ v.s v.z).flatten ≠ [] := by
    rcases List.exists_cons_of_ne_nil hz with ⟨z0, zt, hz'⟩
    rcases List.exists_cons_of_ne_nil hs with ⟨s0, st, hs'⟩
    simp [meshZ, hz', hs']
  obtain ⟨a, ha⟩ := npMin_isSome hfS
  obtain ⟨b, hb⟩ := npMax_isSome hfS
  obtain ⟨c, hcm⟩ := npMin_isSome hfZ
  obtain ⟨d, hd⟩ := npMax_isSome hfZ
  refine ⟨?_, ⟨(a, b, c, d), ?_⟩, ?_, ?_⟩
  · simp only [DataSectionVariable.get_display_limits, Option.getD_some,
      DataSectionVariable.get_display_limits_st]
    rw [if_pos (Or.inr hkey), if_pos (Or.inl hsp)]
  · rw [DataSectionVariable.get_display_limits, Option.getD_some]
    simp only [DataSectionVariable.get_display_limits_st,
      if_pos (Or.inr hkey)]
    rw [ha, hb, hcm, hd]
  · rw [DataSectionVariable.get_display_arrays, Option.getD_some]
    simp only [DataSectionVariable.get_display_arrays_st,
      if_neg (mem_psvd_not_spacetime hkey), if_pos hkey]
    rw [hap]
    rfl
  · rw [DataSectionVariable.get_display_lines, Option.getD_some]
    simp only [DataSectionVariable.get_display_lines_st,
      if_neg (mem_psvd_not_spacetime hkey), if_pos hkey]
    rw [hap]
    rfl

/-- Claim C10 witness: the preserved-style display limits evaluated on
the concrete variable exVarNoStrat with key psvd. -/
theorem preserved_limits_no_capability_check_witness :
    (exVarNoStrat.strat_attr = none) ∧
    (exVarNoStrat.get_display_limits (some "psvd") =
      exVarNoStrat.get_display_limits (some "spacetime") ∧
    (∃ bbox : ℚ × ℚ × ℚ × ℚ,
      exVarNoStrat.get_display_limits (some "psvd") = .ok bbox) ∧
    exVarNoStrat.get_display_arrays (some "psvd") =
      .error (.attributeError noPreservationMsg) ∧
    exVarNoStrat.get_display_lines (some "psvd") =
      .error (.attributeError noPreservationMsg)) :=
  ⟨rfl, preserved_limits_no_capability_check exVarNoStrat "psvd" rfl
    (by decide) (by decide) (by decide)⟩
